import Mathlib
/-!
Shallow embedding of the ServiceCharm lifecycle state machine and dependency
sync tracker from hpctops/charm/service.py, together with the forced-update
decorator from hpctops/misc.py.

Modelling conventions:
* Stored values of the syncs dict are Python booleans or None, embedded as
  Option Bool (none = Python None, some b = Python bool b).
* The syncs dict is an insertion-ordered association list.
* Overridable hooks and per-key sync handlers are opaque: each is modelled by
  a Bool (or a function returning Bool) saying whether the call raises.
* Every operation returns (Charm, Bool) where the Bool records whether an
  uncaught exception escaped the operation; a Python try/except Exception
  block is modelled by discarding the flag, try/finally by running the
  finally part on the intermediate state.
* Timestamps are modelled by a monotone counter (clock).
* Observable calls (hook invocations, sync-handler invocations, entry into
  service_set_state, updated stamps, status recomputations) are recorded in
  an event trace.
-/
/-! Component lemmas for the primitive operations. -/

inductive Ev
  | hookInstall
  | hookEnable
  | hookDisable
  | hookStart
  | hookStop
  | hookSync
  | syncHandler (key : String) (status : Option Bool)
  | setStateCall
  | setUpdated (what : String)
  | updateStatus
deriving DecidableEq

inductive StatusCat
  | blocked
  | maintenance
  | waiting
  | active
deriving DecidableEq

/-- Raise behaviour of the overridable hooks supplied by a subclass
(true = the hook raises an exception when invoked). -/
structure Hooks where
  install : Bool
  enable : Bool
  disable : Bool
  start : Bool
  stop : Bool
  sync : Bool
deriving DecidableEq

/-- State of a ServiceCharm instance: the StoredState fields (stale, state,
status_message, syncs, updated), the transient fields
(_service_required_syncs, _service_sync_handlers), the hooks, the unit
status sink, the timestamp clock and the event trace. -/
structure Charm where
  hooks : Hooks
  service_required_syncs : List String
  service_sync_handlers : String → Option (Option Bool → Bool)
  stale : Bool
  state : String
  status_message : Option String
  syncs : List (String × Option Bool)
  updated : Option (Nat × String)
  unit_status : Option (StatusCat × String)
  clock : Nat
  trace : List Ev

/-- service.py lines 25-29. -/
def PRESTARTED_STATES : List String := ["enabled", "waiting", "broken"]

/-- service.py lines 31-35. -/
def STARTED_STATES : List String := ["started", "waiting", "broken"]

/-- Python dict lookup: d.get(k) as Option, none when the key is absent. -/
def dictGet : List (String × Option Bool) → String → Option (Option Bool)
  | [], _ => none
  | (k1, v) :: d, k => if k1 = k then some v else dictGet d k

/-- Python dict assignment d[k] = v (insertion order preserved). -/
def dictSet : List (String × Option Bool) → String → Option Bool → List (String × Option Bool)
  | [], k, v => [(k, v)]
  | (k1, v1) :: d, k, v => if k1 = k then (k, v) :: d else (k1, v1) :: dictSet d k v

/-- Python truthiness of a stored sync value (None and False are falsy). -/
def truthy : Option Bool → Bool
  | none => false
  | some b => b

/-- service_get_syncs (service.py 327-333): returns a copy of the dict. -/
def service_get_syncs (c : Charm) : List (String × Option Bool) :=
  c.syncs

/-- service_get_sync (service.py 335-344): syncs.get(key, False). -/
def service_get_sync (c : Charm) (key : String) : Option Bool :=
  match dictGet c.syncs key with
  | some v => v
  | none => some false

/-- service_get_stale (service.py 346-353). -/
def service_get_stale (c : Charm) : Bool :=
  c.stale

/-- service_get_state (service.py 355-362). -/
def service_get_state (c : Charm) : String :=
  c.state

/-- service_get_updated (service.py 364-371). -/
def service_get_updated (c : Charm) : Option (Nat × String) :=
  c.updated

/-- service_is_synced (service.py 406-416): false as soon as one required
sync key is not truthy. -/
def service_is_synced (c : Charm) : Bool :=
  c.service_required_syncs.all fun name => truthy (service_get_sync c name)

/-- get_timestamp (misc.py 34-37), modelled by a monotone counter. -/
def get_timestamp (c : Charm) : Nat × Charm :=
  (c.clock, { c with clock := c.clock + 1 })

/-- service_set_updated (service.py 524-532). -/
def service_set_updated (c : Charm) (what : String) (timestamp : Option Nat) : Charm :=
  match timestamp with
  | some ts => { c with updated := some (ts, what), trace := c.trace ++ [Ev.setUpdated what] }
  | none =>
    let p := get_timestamp c
    { p.2 with updated := some (p.1, what), trace := p.2.trace ++ [Ev.setUpdated what] }

/-- Status class selection in service_update_status (service.py 576-586). -/
def statusClassOf (state : String) : StatusCat :=
  if state ∈ ["broken"] then StatusCat.blocked
  else if state ∈ ["idle", "enabled"] then StatusCat.maintenance
  else if state ∈ ["waiting"] then StatusCat.waiting
  else if state ∈ ["started"] then StatusCat.active
  else StatusCat.maintenance

def pyBool : Bool → String
  | true => "True"
  | false => "False"

def pyOptBool : Option Bool → String
  | none => "None"
  | some b => pyBool b

def pySyncsEntries : List (String × Option Bool) → String
  | [] => ""
  | [(k, v)] => k ++ ": " ++ pyOptBool v
  | (k, v) :: rest => k ++ ": " ++ pyOptBool v ++ ", " ++ pySyncsEntries rest

def pySyncs (d : List (String × Option Bool)) : String :=
  "\x7b" ++ pySyncsEntries d ++ "\x7d"

def pyUpdated (u : Nat × String) : String :=
  "(" ++ toString u.1 ++ ", " ++ u.2 ++ ")"

/-- service_update_status (service.py 569-616). The message renders
tuple(service_get_updated()); when updated is still None that call raises
TypeError before unit.status is assigned, modelled by the true flag. -/
def service_update_status (c : Charm) : Charm × Bool :=
  let cls := statusClassOf (service_get_state c)
  match service_get_updated c with
  | none => (c, true)
  | some upd =>
    let syncs := service_get_syncs c
    let nsynced := (syncs.filter fun p => truthy p.2).length
    let nsyncs := syncs.length
    let msg :=
      match c.status_message with
      | some m => " (" ++ m ++ ")"
      | none => ""
    let text :=
      "updated (" ++ pyUpdated upd ++ ")" ++ msg ++
      " stale (" ++ pyBool (service_get_stale c) ++ ")" ++
      " state (" ++ service_get_state c ++ ")" ++
      " synced (" ++ toString nsynced ++ "/" ++ toString nsyncs ++ ")" ++
      " syncs (" ++ pySyncs syncs ++ ")"
    ({ c with unit_status := some (cls, text), trace := c.trace ++ [Ev.updateStatus] }, false)

/-- Sequencing of two Python statements: when the first raised, the second
does not run and the exception keeps propagating. -/
def pseq (r : Charm × Bool) (f : Charm → Charm × Bool) : Charm × Bool :=
  if r.2 then r else f r.1

/-- Invocation of an overridable hook: it is recorded in the trace and
raises according to its flag. -/
def runHook (c : Charm) (e : Ev) (raises : Bool) : Charm × Bool :=
  ({ c with trace := c.trace ++ [e] }, raises)

/-- service_set_stale (service.py 437-448). -/
def service_set_stale (c : Charm) (state : Bool) : Charm × Bool :=
  let current := c.stale
  if current ≠ state then
    let c1 := { c with stale := state }
    let c2 := service_set_updated c1 "stale" none
    service_update_status c2
  else (c, false)

/-- service_set_state (service.py 450-474): broken/waiting requests are
normalized to started, then started is downgraded to broken or waiting when
unsynced, and the result is committed only when it differs. -/
def service_set_state (c : Charm) (state : String) : Charm × Bool :=
  let c := { c with trace := c.trace ++ [Ev.setStateCall] }
  let current := c.state
  let synced := service_is_synced c
  let state1 := if state ∈ ["broken", "waiting"] then "started" else state
  let state2 :=
    if state1 = "started" then
      if synced = false then
        if current ∈ ["broken", "started"] then "broken" else "waiting"
      else state1
    else state1
  if current ≠ state2 then
    let c1 := { c with state := state2 }
    let c2 := service_set_updated c1 "state" none
    service_update_status c2
  else (c, false)

/-- service_set_status_message (service.py 476-483). -/
def service_set_status_message (c : Charm) (msg : Option String) : Charm :=
  { c with status_message := msg }

/-- service_set_sync (service.py 485-522): status None re-reads the current
value and forces; on change or force the dict is written, the registered
handler is invoked with its exception caught (lines 512-516), then the state
is re-evaluated, updated is stamped and the status recomputed. -/
def service_set_sync (c : Charm) (key : String) (status : Option Bool) (force : Bool) :
    Charm × Bool :=
  let current := (dictGet c.syncs key).join
  let sf : Option Bool × Bool :=
    match status with
    | none => (current, true)
    | some b => (some b, force)
  let status1 := sf.1
  let force1 := sf.2
  if current ≠ status1 ∨ force1 = true then
    let c1 := { c with syncs := dictSet c.syncs key status1 }
    let c2 :=
      match c1.service_sync_handlers key with
      | some h =>
        let _raised := h status1
        { c1 with trace := c1.trace ++ [Ev.syncHandler key status1] }
      | none => c1
    pseq (service_set_state c2 (service_get_state c2)) fun c3 =>
      pseq (service_set_updated c3 "sync" none, false) service_update_status
  else (c, false)

/-- service_set_required_syncs (service.py 429-435): defensive copy. -/
def service_set_required_syncs (c : Charm) (keys : List String) : Charm :=
  { c with service_required_syncs := keys }

/-- service_init_sync (service.py 373-382): set_sync only when the key is
absent, then (re)bind the handler. -/
def service_init_sync (c : Charm) (key : String) (status : Bool)
    (handler : Option (Option Bool → Bool)) : Charm × Bool :=
  pseq
    (if dictGet c.syncs key = none then service_set_sync c key (some status) false
     else (c, false))
    fun c1 =>
      ({ c1 with
          service_sync_handlers := fun k =>
            if k = key then handler else c1.service_sync_handlers k },
        false)

/-- service_install (service.py 384-392): the hook call has no try/except,
so its exception escapes; the service_forced_update("install") decorator
(misc.py 78-110) still stamps updated and recomputes status in its finally
block, swallowing its own failures. -/
def service_install (c : Charm) : Charm × Bool :=
  let r := runHook c Ev.hookInstall c.hooks.install
  let c1 := service_set_updated r.1 "install" none
  let c2 := (service_update_status c1).1
  (c2, r.2)

/-- service_enable (service.py 310-324): fires only from idle; the hook,
set_state and stamp are wrapped in try/except Exception; the
service_forced_update("enable") decorator stamps and recomputes in finally. -/
def service_enable (c : Charm) (force : Bool) : Charm × Bool :=
  let _unused := force
  let body : Charm × Bool :=
    if service_get_state c = "idle" then
      let inner :=
        pseq (runHook c Ev.hookEnable c.hooks.enable) fun ca =>
        pseq (service_set_state ca "enabled") fun cb =>
        (service_set_updated cb "enable" none, false)
      (inner.1, false)
    else (c, false)
  let c1 := service_set_updated body.1 "enable" none
  ((service_update_status c1).1, body.2)

/-- service_disable (service.py 294-308): fires only from enabled. -/
def service_disable (c : Charm) (force : Bool) : Charm × Bool :=
  let _unused := force
  let body : Charm × Bool :=
    if service_get_state c = "enabled" then
      let inner :=
        pseq (runHook c Ev.hookDisable c.hooks.disable) fun ca =>
        pseq (service_set_state ca "idle") fun cb =>
        (service_set_updated cb "disable" none, false)
      (inner.1, false)
    else (c, false)
  let c1 := service_set_updated body.1 "disable" none
  ((service_update_status c1).1, body.2)

/-- service_sync (service.py 618-641): outside PRESTARTED_STATES and not
forced it refuses, marks stale and stamps; otherwise the hook runs inside
try/except Exception; update_status always runs at the end. -/
def service_sync (c : Charm) (force : Bool) : Charm × Bool :=
  let r :=
    if service_get_state c ∉ PRESTARTED_STATES ∧ force = false then
      pseq (service_set_stale c true) fun ca =>
        (service_set_updated ca "sync" none, false)
    else
      let inner :=
        pseq (runHook c Ev.hookSync c.hooks.sync) fun ca =>
        pseq (service_set_stale ca false) fun cb =>
        (service_set_updated cb "sync" none, false)
      (inner.1, false)
  pseq r service_update_status

/-- service_start (service.py 534-550): fires only from PRESTARTED_STATES;
sync, hook, set_state and stamp run inside try/except Exception; the final
update_status is outside the try block. -/
def service_start (c : Charm) : Charm × Bool :=
  if service_get_state c ∈ PRESTARTED_STATES then
    let inner :=
      pseq (service_sync c false) fun ca =>
      pseq (runHook ca Ev.hookStart ca.hooks.start) fun cb =>
      pseq (service_set_state cb "started") fun cc =>
      (service_set_updated cc "start" none, false)
    service_update_status inner.1
  else (c, false)

/-- service_stop (service.py 552-567): fires only from STARTED_STATES. -/
def service_stop (c : Charm) (force : Bool) : Charm × Bool :=
  let _unused := force
  if service_get_state c ∈ STARTED_STATES then
    let inner :=
      pseq (runHook c Ev.hookStop c.hooks.stop) fun ca =>
      pseq (service_set_state ca "enabled") fun cb =>
      (service_set_updated cb "stop" none, false)
    service_update_status inner.1
  else (c, false)

/-- service_restart (service.py 418-427): stop then start. -/
def service_restart (c : Charm) (force : Bool) (sync : Bool) : Charm × Bool :=
  let _unused := sync
  pseq (service_stop c force) fun c1 => service_start c1

/-- ServiceCharm.__init__ (service.py 60-88): StoredState defaults
(stale=True, state=idle, status_message=None, syncs={}, updated=None),
empty required list and handler map, then service_set_updated("init"). -/
def initCharm (hooks : Hooks) : Charm :=
  let c : Charm :=
    { hooks := hooks
      service_required_syncs := []
      service_sync_handlers := fun _ => none
      stale := true
      state := "idle"
      status_message := none
      syncs := []
      updated := none
      unit_status := none
      clock := 0
      trace := [] }
  service_set_updated c "init" none

/-- The three fields whose silent mutation is forbidden by the spec. -/
def mutFields (c : Charm) : List (String × Option Bool) × String × Bool :=
  (c.syncs, c.state, c.stale)

/-- One invocation of a public ServiceCharm operation. -/
inductive Step : Charm → Charm → Prop
  | install (c : Charm) : Step c (service_install c).1
  | enable (c : Charm) (force : Bool) : Step c (service_enable c force).1
  | disable (c : Charm) (force : Bool) : Step c (service_disable c force).1
  | start (c : Charm) : Step c (service_start c).1
  | stop (c : Charm) (force : Bool) : Step c (service_stop c force).1
  | restart (c : Charm) (force sync : Bool) : Step c (service_restart c force sync).1
  | sync (c : Charm) (force : Bool) : Step c (service_sync c force).1
  | set_state (c : Charm) (s : String) : Step c (service_set_state c s).1
  | set_stale (c : Charm) (b : Bool) : Step c (service_set_stale c b).1
  | set_sync (c : Charm) (key : String) (status : Option Bool) (force : Bool) :
      Step c (service_set_sync c key status force).1
  | init_sync (c : Charm) (key : String) (status : Bool) (h : Option (Option Bool → Bool)) :
      Step c (service_init_sync c key status h).1
  | set_required (c : Charm) (keys : List String) : Step c (service_set_required_syncs c keys)
  | set_status_message (c : Charm) (m : Option String) :
      Step c (service_set_status_message c m)
  | set_updated (c : Charm) (w : String) (ts : Option Nat) :
      Step c (service_set_updated c w ts)
  | update_status (c : Charm) : Step c (service_update_status c).1

/-- Charm states reachable from construction by public operations. -/
inductive Reachable : Charm → Prop
  | init (h : Hooks) : Reachable (initCharm h)
  | step {c c' : Charm} : Reachable c → Step c c' → Reachable c'

def hooksOk : Hooks :=
  { install := false, enable := false, disable := false,
    start := false, stop := false, sync := false }

def hooksAllRaise : Hooks :=
  { install := true, enable := true, disable := true,
    start := true, stop := true, sync := true }

/-- Freshly constructed charm: state idle, no required syncs. -/
def sampleIdle : Charm := initCharm hooksOk

def sampleEnabled : Charm := { sampleIdle with state := "enabled" }

/-- Started charm with one required sync key set to false (unsynced). -/
def sampleUnsyncedStarted : Charm :=
  { sampleIdle with
      service_required_syncs := ["db"]
      syncs := [("db", some false)]
      state := "started" }

def sampleUnsyncedIdle : Charm :=
  { sampleIdle with
      service_required_syncs := ["db"]
      syncs := [("db", some false)] }

def sampleSyncedDb : Charm := { sampleIdle with syncs := [("db", some true)] }

def raisingHandler : Option Bool → Bool := fun _ => true

/-- Charm with a sync handler registered for key db that always raises. -/
def sampleWithHandler : Charm :=
  { sampleIdle with
      service_sync_handlers := fun k => if k = "db" then some raisingHandler else none }

def sampleWaiting : Charm := { sampleIdle with state := "waiting" }

/-- The effective state computed by service_set_state before the commit
check (service.py 457-469). -/
def resolveState (c : Charm) (state : String) : String :=
  let state1 := if state ∈ ["broken", "waiting"] then "started" else state
  if state1 = "started" then
    if service_is_synced c = false then
      if c.state ∈ ["broken", "started"] then "broken" else "waiting"
    else state1
  else state1

/-- Body of the fired branch of service_set_sync (service.py 508-522),
with status1 the value actually stored. -/
def setSyncBody (c : Charm) (key : String) (status1 : Option Bool) : Charm × Bool :=
  let c1 := { c with syncs := dictSet c.syncs key status1 }
  let c2 :=
    match c1.service_sync_handlers key with
    | some _ => { c1 with trace := c1.trace ++ [Ev.syncHandler key status1] }
    | none => c1
  pseq (service_set_state c2 (service_get_state c2)) fun c3 =>
    pseq (service_set_updated c3 "sync" none, false) service_update_status

def sampleInstallRaise : Charm := { sampleIdle with hooks := { hooksOk with install := true } }

def sampleStartedStopRaise : Charm :=
  { sampleIdle with state := "started", hooks := { hooksOk with stop := true } }

def sampleEnabledStartRaise : Charm :=
  { sampleIdle with state := "enabled", hooks := { hooksOk with start := true } }

def sampleEnabledSyncRaise : Charm :=
  { sampleIdle with state := "enabled", hooks := { hooksOk with sync := true } }

/-- A mutation that was accompanied, within the same operation, by an
updated stamp and a status recompute recorded in the trace. -/
def Stamped (c c' : Charm) : Prop :=
  ∃ t, c'.trace = c.trace ++ t ∧ (∃ w, Ev.setUpdated w ∈ t) ∧ Ev.updateStatus ∈ t

/-- Either the operation left syncs, state and stale unchanged (appending
only to the trace), or it stamped updated and recomputed the status. -/
def Good (c c' : Charm) : Prop :=
  (mutFields c' = mutFields c ∧ ∃ t, c'.trace = c.trace ++ t) ∨ Stamped c c'

theorem dictGet_dictSet_self (d : List (String × Option Bool)) (k : String) (v : Option Bool) :
    dictGet (dictSet d k v) k = some v := by
  induction d with
  | nil => simp [dictGet, dictSet]
  | cons p d ih =>
    by_cases h : p.1 = k
    · simp [dictGet, dictSet, h]
    · simp [dictGet, dictSet, h, ih]

theorem dictGet_dictSet_ne (d : List (String × Option Bool)) (k k1 : String) (v : Option Bool)
    (h : k1 ≠ k) : dictGet (dictSet d k v) k1 = dictGet d k1 := by
  induction d with
  | nil => simp [dictGet, dictSet, Ne.symm h]
  | cons p d ih =>
    by_cases hp : p.1 = k
    · simp [dictGet, dictSet, hp, Ne.symm h]
    · simp only [dictSet, if_neg hp, dictGet]
      by_cases hp1 : p.1 = k1
      · simp [hp1]
      · simp [hp1, ih]

theorem su_trace (c : Charm) (w : String) (ts : Option Nat) :
    (service_set_updated c w ts).trace = c.trace ++ [Ev.setUpdated w] := by
  cases ts <;> rfl

theorem su_state (c : Charm) (w : String) (ts : Option Nat) :
    (service_set_updated c w ts).state = c.state := by
  cases ts <;> rfl

theorem su_stale (c : Charm) (w : String) (ts : Option Nat) :
    (service_set_updated c w ts).stale = c.stale := by
  cases ts <;> rfl

theorem su_syncs (c : Charm) (w : String) (ts : Option Nat) :
    (service_set_updated c w ts).syncs = c.syncs := by
  cases ts <;> rfl

theorem su_required (c : Charm) (w : String) (ts : Option Nat) :
    (service_set_updated c w ts).service_required_syncs = c.service_required_syncs := by
  cases ts <;> rfl

theorem su_handlers (c : Charm) (w : String) (ts : Option Nat) :
    (service_set_updated c w ts).service_sync_handlers = c.service_sync_handlers := by
  cases ts <;> rfl

theorem su_hooks (c : Charm) (w : String) (ts : Option Nat) :
    (service_set_updated c w ts).hooks = c.hooks := by
  cases ts <;> rfl

theorem su_updated_none (c : Charm) (w : String) :
    (service_set_updated c w none).updated = some (c.clock, w) := rfl

theorem su_updated (c : Charm) (w : String) (ts : Option Nat) :
    ∃ n, (service_set_updated c w ts).updated = some (n, w) := by
  cases ts with
  | none => exact ⟨c.clock, rfl⟩
  | some n => exact ⟨n, rfl⟩

theorem su_isSome (c : Charm) (w : String) (ts : Option Nat) :
    (service_set_updated c w ts).updated.isSome := by
  cases ts <;> rfl

theorem us_none (c : Charm) (h : c.updated = none) :
    service_update_status c = (c, true) := by
  simp [service_update_status, service_get_updated, h]

theorem us_snd (c : Charm) (h : c.updated.isSome) :
    (service_update_status c).2 = false := by
  cases hu : c.updated with
  | none => rw [hu] at h; exact absurd h (by simp)
  | some u => simp [service_update_status, service_get_updated, hu]

theorem us_trace (c : Charm) (h : c.updated.isSome) :
    (service_update_status c).1.trace = c.trace ++ [Ev.updateStatus] := by
  cases hu : c.updated with
  | none => rw [hu] at h; exact absurd h (by simp)
  | some u => simp [service_update_status, service_get_updated, hu]

theorem us_unit_isSome (c : Charm) (h : c.updated.isSome) :
    ((service_update_status c).1.unit_status).isSome := by
  cases hu : c.updated with
  | none => rw [hu] at h; exact absurd h (by simp)
  | some u => simp [service_update_status, service_get_updated, hu]

theorem us_state (c : Charm) : (service_update_status c).1.state = c.state := by
  cases hu : c.updated <;> simp [service_update_status, service_get_updated, hu]

theorem us_stale (c : Charm) : (service_update_status c).1.stale = c.stale := by
  cases hu : c.updated <;> simp [service_update_status, service_get_updated, hu]

theorem us_syncs (c : Charm) : (service_update_status c).1.syncs = c.syncs := by
  cases hu : c.updated <;> simp [service_update_status, service_get_updated, hu]

theorem us_updated (c : Charm) : (service_update_status c).1.updated = c.updated := by
  cases hu : c.updated <;> simp [service_update_status, service_get_updated, hu]

theorem us_required (c : Charm) :
    (service_update_status c).1.service_required_syncs = c.service_required_syncs := by
  cases hu : c.updated <;> simp [service_update_status, service_get_updated, hu]

theorem us_handlers (c : Charm) :
    (service_update_status c).1.service_sync_handlers = c.service_sync_handlers := by
  cases hu : c.updated <;> simp [service_update_status, service_get_updated, hu]

theorem us_hooks (c : Charm) : (service_update_status c).1.hooks = c.hooks := by
  cases hu : c.updated <;> simp [service_update_status, service_get_updated, hu]

theorem pseq_false {r : Charm × Bool} (f : Charm → Charm × Bool) (h : r.2 = false) :
    pseq r f = f r.1 := by
  simp [pseq, h]

theorem pseq_true {r : Charm × Bool} (f : Charm → Charm × Bool) (h : r.2 = true) :
    pseq r f = r := by
  simp [pseq, h]

theorem pseq_pair (c : Charm) (f : Charm → Charm × Bool) :
    pseq (c, false) f = f c := rfl

theorem truthy_eq_true (x : Option Bool) : truthy x = true ↔ x = some true := by
  cases x with
  | none => simp [truthy]
  | some b => simp [truthy]

theorem all_ext {l : List String} {f g : String → Bool} (h : ∀ a ∈ l, f a = g a) :
    l.all f = l.all g := by
  induction l with
  | nil => rfl
  | cons a l ih =>
    simp only [List.all_cons, h a (by simp), ih fun a ha => h a (by simp [ha])]

theorem sss_of_eq (c : Charm) (b : Bool) (h : c.stale = b) :
    service_set_stale c b = (c, false) := by
  simp [service_set_stale, h]

theorem sss_of_ne (c : Charm) (b : Bool) (h : c.stale ≠ b) :
    service_set_stale c b =
      service_update_status (service_set_updated { c with stale := b } "stale" none) := by
  simp [service_set_stale, h]

theorem ssst_eq_resolve (c : Charm) (s : String) :
    service_set_state c s =
      if c.state ≠ resolveState c s then
        service_update_status (service_set_updated
          { c with state := resolveState c s, trace := c.trace ++ [Ev.setStateCall] }
          "state" none)
      else ({ c with trace := c.trace ++ [Ev.setStateCall] }, false) := rfl

theorem ssst_state (c : Charm) (s : String) :
    (service_set_state c s).1.state = resolveState c s := by
  rw [ssst_eq_resolve]
  by_cases h : c.state = resolveState c s
  · simp [h]
  · simp [h, us_state, su_state]

theorem ssst_snd (c : Charm) (s : String) : (service_set_state c s).2 = false := by
  rw [ssst_eq_resolve]
  by_cases h : c.state = resolveState c s
  · simp [h]
  · simp [h, us_snd, su_isSome]

theorem ssst_syncs (c : Charm) (s : String) : (service_set_state c s).1.syncs = c.syncs := by
  rw [ssst_eq_resolve]
  by_cases h : c.state = resolveState c s
  · simp [h]
  · simp [h, us_syncs, su_syncs]

theorem ssst_stale (c : Charm) (s : String) : (service_set_state c s).1.stale = c.stale := by
  rw [ssst_eq_resolve]
  by_cases h : c.state = resolveState c s
  · simp [h]
  · simp [h, us_stale, su_stale]

theorem ssst_required (c : Charm) (s : String) :
    (service_set_state c s).1.service_required_syncs = c.service_required_syncs := by
  rw [ssst_eq_resolve]
  by_cases h : c.state = resolveState c s
  · simp [h]
  · simp [h, us_required, su_required]

theorem ssst_handlers (c : Charm) (s : String) :
    (service_set_state c s).1.service_sync_handlers = c.service_sync_handlers := by
  rw [ssst_eq_resolve]
  by_cases h : c.state = resolveState c s
  · simp [h]
  · simp [h, us_handlers, su_handlers]

theorem ssst_hooks (c : Charm) (s : String) :
    (service_set_state c s).1.hooks = c.hooks := by
  rw [ssst_eq_resolve]
  by_cases h : c.state = resolveState c s
  · simp [h]
  · simp [h, us_hooks, su_hooks]

theorem ssst_trace (c : Charm) (s : String) :
    ∃ t, (service_set_state c s).1.trace = c.trace ++ (Ev.setStateCall :: t) := by
  rw [ssst_eq_resolve]
  by_cases h : c.state = resolveState c s
  · exact ⟨[], by simp [h]⟩
  · refine ⟨[Ev.setUpdated "state", Ev.updateStatus], ?_⟩
    simp [h, us_trace, su_isSome, su_trace]

theorem ssst_updated (c : Charm) (s : String) :
    (service_set_state c s).1.updated = c.updated
      ∨ ∃ n, (service_set_state c s).1.updated = some (n, "state") := by
  rw [ssst_eq_resolve]
  by_cases h : c.state = resolveState c s
  · left; simp [h]
  · right
    simp only [h, ne_eq, not_false_iff, Ne.symm, if_pos, us_updated]
    simp [Ne.symm h, us_updated, su_updated_none]

theorem ssy_some (c : Charm) (key : String) (b : Bool) (force : Bool) :
    service_set_sync c key (some b) force =
      if (dictGet c.syncs key).join ≠ some b ∨ force = true
      then setSyncBody c key (some b)
      else (c, false) := rfl

theorem ssy_none (c : Charm) (key : String) (force : Bool) :
    service_set_sync c key none force = setSyncBody c key ((dictGet c.syncs key).join) := by
  unfold service_set_sync setSyncBody
  simp

theorem ssb_snd (c : Charm) (key : String) (v : Option Bool) :
    (setSyncBody c key v).2 = false := by
  unfold setSyncBody
  rw [pseq_false _ (ssst_snd _ _), pseq_pair]
  exact us_snd _ (su_isSome _ _ _)

theorem ssb_syncs (c : Charm) (key : String) (v : Option Bool) :
    (setSyncBody c key v).1.syncs = dictSet c.syncs key v := by
  unfold setSyncBody
  rw [pseq_false _ (ssst_snd _ _), pseq_pair]
  rw [us_syncs, su_syncs, ssst_syncs]
  cases h : ({ c with syncs := dictSet c.syncs key v } : Charm).service_sync_handlers key <;>
    simp [h]

theorem tail_after_state_stamp (c2 : Charm) (s : String) :
    ∃ t1,
      (service_update_status (service_set_updated (service_set_state c2 s).1 "sync" none)).1.trace
        = c2.trace ++ (Ev.setStateCall :: (t1 ++ [Ev.setUpdated "sync", Ev.updateStatus])) := by
  obtain ⟨t1, ht1⟩ := ssst_trace c2 s
  refine ⟨t1, ?_⟩
  rw [us_trace _ (su_isSome _ _ _), su_trace, ht1]
  simp

theorem ssb_trace (c : Charm) (key : String) (v : Option Bool) :
    ∃ t, (setSyncBody c key v).1.trace = c.trace ++ t
      ∧ Ev.setStateCall ∈ t ∧ Ev.setUpdated "sync" ∈ t ∧ Ev.updateStatus ∈ t
      ∧ (∀ h, c.service_sync_handlers key = some h → Ev.syncHandler key v ∈ t) := by
  unfold setSyncBody
  rw [pseq_false _ (ssst_snd _ _), pseq_pair]
  cases hh : ({ c with syncs := dictSet c.syncs key v } : Charm).service_sync_handlers key with
  | none =>
    simp only [hh]
    obtain ⟨t1, ht1⟩ :=
      tail_after_state_stamp { c with syncs := dictSet c.syncs key v }
        (service_get_state { c with syncs := dictSet c.syncs key v })
    refine ⟨Ev.setStateCall :: (t1 ++ [Ev.setUpdated "sync", Ev.updateStatus]),
      ht1, by simp, by simp, by simp, ?_⟩
    intro h hsome
    simp at hsome
  | some h0 =>
    simp only [hh]
    obtain ⟨t1, ht1⟩ :=
      tail_after_state_stamp
        { c with syncs := dictSet c.syncs key v, trace := c.trace ++ [Ev.syncHandler key v] }
        (service_get_state { c with syncs := dictSet c.syncs key v, trace := c.trace ++ [Ev.syncHandler key v] })
    refine ⟨Ev.syncHandler key v
        :: (Ev.setStateCall :: (t1 ++ [Ev.setUpdated "sync", Ev.updateStatus])),
      ?_, by simp, by simp, by simp, fun h _ => by simp⟩
    rw [ht1]
    simp

/-- C3: service_set_state normalizes a requested broken or waiting state to
started; when the resolved target is started while is_synced() is false it
commits broken if the current state is broken or started and waiting
otherwise; in particular set_state("started") while unsynced yields broken
from started and waiting from idle. -/
theorem C3_set_state_normalization (c : Charm) :
    (service_set_state c "broken" = service_set_state c "started"
      ∧ service_set_state c "waiting" = service_set_state c "started")
    ∧ (service_is_synced c = false →
        ((c.state ∈ (["broken", "started"] : List String) →
            (service_set_state c "started").1.state = "broken")
          ∧ (c.state ∉ (["broken", "started"] : List String) →
            (service_set_state c "started").1.state = "waiting"))) := by
  refine ⟨⟨rfl, rfl⟩, fun hsyn => ⟨fun hmem => ?_, fun hmem => ?_⟩⟩
  · rw [ssst_state]
    simp [resolveState, hsyn, hmem]
  · rw [ssst_state]
    simp [resolveState, hsyn, hmem]

/-- C3 witness: concrete unsynced charms, one already started, one idle. -/
theorem C3_witness :
    service_is_synced sampleUnsyncedStarted = false
    ∧ (service_set_state sampleUnsyncedStarted "started").1.state = "broken"
    ∧ service_is_synced sampleUnsyncedIdle = false
    ∧ (service_set_state sampleUnsyncedIdle "started").1.state = "waiting" :=
  ⟨by decide,
   ((C3_set_state_normalization sampleUnsyncedStarted).2 (by decide)).1 (by decide),
   by decide,
   ((C3_set_state_normalization sampleUnsyncedIdle).2 (by decide)).2 (by decide)⟩

/-- C5: service_is_synced() is true iff every key in required_syncs maps to
true (unknown keys reading as false through service_get_sync), vacuously
true when required_syncs is empty, and writing a non-required key never
changes the result. -/
theorem C5_is_synced_characterization (c : Charm) (k : String) (v : Option Bool) :
    (service_is_synced c = true ↔
      ∀ name ∈ c.service_required_syncs, service_get_sync c name = some true)
    ∧ (c.service_required_syncs = [] → service_is_synced c = true)
    ∧ (dictGet c.syncs k = none → service_get_sync c k = some false)
    ∧ (k ∉ c.service_required_syncs →
        service_is_synced { c with syncs := dictSet c.syncs k v } = service_is_synced c) := by
  refine ⟨?_, fun h => ?_, fun h => ?_, fun h => ?_⟩
  · simp [service_is_synced, List.all_eq_true, truthy_eq_true]
  · simp [service_is_synced, h]
  · simp [service_get_sync, h]
  · show c.service_required_syncs.all _ = c.service_required_syncs.all _
    apply all_ext
    intro name hname
    have hne : name ≠ k := fun e => h (e ▸ hname)
    unfold service_get_sync
    rw [show ({ c with syncs := dictSet c.syncs k v } : Charm).syncs = dictSet c.syncs k v
      from rfl]
    rw [dictGet_dictSet_ne _ _ _ _ hne]

/-- C5 witness: concrete instances of each conjunct. -/
theorem C5_witness :
    (service_is_synced sampleUnsyncedIdle = true ↔
      ∀ name ∈ sampleUnsyncedIdle.service_required_syncs,
        service_get_sync sampleUnsyncedIdle name = some true)
    ∧ service_is_synced sampleIdle = true
    ∧ service_get_sync sampleIdle "db" = some false
    ∧ service_is_synced
        { sampleUnsyncedIdle with
            syncs := dictSet sampleUnsyncedIdle.syncs "other" (some false) }
      = service_is_synced sampleUnsyncedIdle :=
  ⟨(C5_is_synced_characterization sampleUnsyncedIdle "x" none).1,
   (C5_is_synced_characterization sampleIdle "x" none).2.1 rfl,
   (C5_is_synced_characterization sampleIdle "db" none).2.2.1 rfl,
   (C5_is_synced_characterization sampleUnsyncedIdle "other" (some false)).2.2.2 (by decide)⟩

/-- C6: service_set_sync(key, v, force=false) is a no-op when v equals the
stored value; calling it twice with the same boolean triggers the handler,
the state re-evaluation, the updated stamp and the status recompute only on
the first call, and the second call changes nothing. -/
theorem C6_set_sync_idempotent (c : Charm) (key : String) (b : Bool) :
    (∀ c0 : Charm, (dictGet c0.syncs key).join = some b →
        service_set_sync c0 key (some b) false = (c0, false))
    ∧ (service_set_sync (service_set_sync c key (some b) false).1 key (some b) false
        = ((service_set_sync c key (some b) false).1, false))
    ∧ ((dictGet c.syncs key).join ≠ some b →
        ∃ t, (service_set_sync c key (some b) false).1.trace = c.trace ++ t
          ∧ Ev.setStateCall ∈ t ∧ Ev.setUpdated "sync" ∈ t ∧ Ev.updateStatus ∈ t
          ∧ ∀ h, c.service_sync_handlers key = some h →
              Ev.syncHandler key (some b) ∈ t) := by
  have noop : ∀ c0 : Charm, (dictGet c0.syncs key).join = some b →
      service_set_sync c0 key (some b) false = (c0, false) := by
    intro c0 h0
    have hnc : ¬((dictGet c0.syncs key).join ≠ some b ∨ false = true) := by
      intro hcond
      rcases hcond with h1 | h2
      · exact h1 h0
      · simp at h2
    rw [ssy_some, if_neg hnc]
  refine ⟨noop, ?_, fun hne => ?_⟩
  · by_cases h0 : (dictGet c.syncs key).join = some b
    · rw [noop c h0]
      exact noop c h0
    · have hfirst : service_set_sync c key (some b) false = setSyncBody c key (some b) := by
        rw [ssy_some, if_pos (Or.inl h0)]
      rw [hfirst]
      apply noop
      rw [ssb_syncs, dictGet_dictSet_self]
      rfl
  · rw [ssy_some, if_pos (Or.inl hne)]
    exact ssb_trace c key (some b)

/-- C6 witness: second call after setting db to true is the identity, and
a first call that changes the value stamps and recomputes. -/
theorem C6_witness :
    (service_set_sync sampleSyncedDb "db" (some true) false = (sampleSyncedDb, false))
    ∧ (service_set_sync (service_set_sync sampleIdle "db" (some true) false).1 "db"
        (some true) false = ((service_set_sync sampleIdle "db" (some true) false).1, false))
    ∧ ∃ t, (service_set_sync sampleIdle "db" (some true) false).1.trace
          = sampleIdle.trace ++ t
        ∧ Ev.setStateCall ∈ t ∧ Ev.setUpdated "sync" ∈ t ∧ Ev.updateStatus ∈ t
        ∧ ∀ h, sampleIdle.service_sync_handlers "db" = some h →
            Ev.syncHandler "db" (some true) ∈ t :=
  ⟨(C6_set_sync_idempotent sampleSyncedDb "db" true).1 sampleSyncedDb (by decide),
   (C6_set_sync_idempotent sampleIdle "db" true).2.1,
   (C6_set_sync_idempotent sampleIdle "db" true).2.2 (by decide)⟩

/-- C7: an exception raised by a registered per-key sync handler is caught
inside service_set_sync: the operation does not raise, the write of
syncs[key], the state re-evaluation, the updated stamp and the status
recompute all still take place. -/
theorem C7_handler_failure_contained (c : Charm) (key : String) (v : Option Bool)
    (force : Bool) (h : Option Bool → Bool) (status1 : Option Bool)
    (hreg : c.service_sync_handlers key = some h)
    (hst : status1 = match v with
      | none => (dictGet c.syncs key).join
      | some b => some b)
    (hfire : v = none ∨ ((dictGet c.syncs key).join ≠ v ∨ force = true))
    (_hraise : h status1 = true) :
    (service_set_sync c key v force).2 = false
    ∧ dictGet (service_set_sync c key v force).1.syncs key = some status1
    ∧ ∃ t, (service_set_sync c key v force).1.trace = c.trace ++ t
        ∧ Ev.syncHandler key status1 ∈ t ∧ Ev.setStateCall ∈ t
        ∧ Ev.setUpdated "sync" ∈ t ∧ Ev.updateStatus ∈ t := by
  have hbody : service_set_sync c key v force = setSyncBody c key status1 := by
    cases v with
    | none => rw [ssy_none, hst]
    | some b =>
      rw [ssy_some, if_pos, hst]
      rcases hfire with h1 | h2
      · exact absurd h1 (by simp)
      · exact h2
  rw [hbody]
  refine ⟨ssb_snd _ _ _, ?_, ?_⟩
  · rw [ssb_syncs, dictGet_dictSet_self]
  · obtain ⟨t, ht, h1, h2, h3, h4⟩ := ssb_trace c key status1
    exact ⟨t, ht, h4 h hreg, h1, h2, h3⟩

/-- C7 witness: a handler for db that always raises, on a fresh charm. -/
theorem C7_witness :
    (service_set_sync sampleWithHandler "db" (some true) false).2 = false
    ∧ dictGet (service_set_sync sampleWithHandler "db" (some true) false).1.syncs "db"
        = some (some true)
    ∧ ∃ t, (service_set_sync sampleWithHandler "db" (some true) false).1.trace
          = sampleWithHandler.trace ++ t
        ∧ Ev.syncHandler "db" (some true) ∈ t ∧ Ev.setStateCall ∈ t
        ∧ Ev.setUpdated "sync" ∈ t ∧ Ev.updateStatus ∈ t :=
  C7_handler_failure_contained sampleWithHandler "db" (some true) false raisingHandler
    (some true) rfl rfl (Or.inr (Or.inl (by decide))) rfl

/-- C10: service_set_sync with the status argument omitted (None) on a key
absent from syncs stores None under the key, invokes the registered handler
with None, and subsequent service_get_sync(key) returns None, not false. -/
theorem C10_none_sentinel_stores_none (c : Charm) (key : String)
    (habs : dictGet c.syncs key = none) :
    dictGet (service_set_sync c key none false).1.syncs key = some none
    ∧ service_get_sync (service_set_sync c key none false).1 key = none
    ∧ service_get_sync (service_set_sync c key none false).1 key ≠ some false
    ∧ ∀ h, c.service_sync_handlers key = some h →
        ∃ t, (service_set_sync c key none false).1.trace = c.trace ++ t
          ∧ Ev.syncHandler key none ∈ t := by
  have hcur : (dictGet c.syncs key).join = none := by rw [habs]; rfl
  rw [ssy_none, hcur]
  have hsy : dictGet (setSyncBody c key none).1.syncs key = some none := by
    rw [ssb_syncs, dictGet_dictSet_self]
  have hget : service_get_sync (setSyncBody c key none).1 key = none := by
    unfold service_get_sync
    rw [hsy]
  refine ⟨hsy, hget, ?_, ?_⟩
  · rw [hget]
    simp
  · intro h hreg
    obtain ⟨t, ht, _, _, _, h4⟩ := ssb_trace c key none
    exact ⟨t, ht, h4 h hreg⟩

/-- C10 witness: fresh charm with a registered handler for db, key absent. -/
theorem C10_witness :
    dictGet (service_set_sync sampleWithHandler "db" none false).1.syncs "db" = some none
    ∧ service_get_sync (service_set_sync sampleWithHandler "db" none false).1 "db" = none
    ∧ service_get_sync (service_set_sync sampleWithHandler "db" none false).1 "db"
        ≠ some false
    ∧ ∀ h, sampleWithHandler.service_sync_handlers "db" = some h →
        ∃ t, (service_set_sync sampleWithHandler "db" none false).1.trace
            = sampleWithHandler.trace ++ t
          ∧ Ev.syncHandler "db" none ∈ t :=
  C10_none_sentinel_stores_none sampleWithHandler "db" rfl

theorem sss_snd (c : Charm) (b : Bool) : (service_set_stale c b).2 = false := by
  by_cases h : c.stale = b
  · rw [sss_of_eq c b h]
  · rw [sss_of_ne c b h]
    exact us_snd _ (su_isSome _ _ _)

theorem sss_stale (c : Charm) (b : Bool) : (service_set_stale c b).1.stale = b := by
  by_cases h : c.stale = b
  · rw [sss_of_eq c b h, ← h]
  · rw [sss_of_ne c b h, us_stale, su_stale]

theorem sss_state (c : Charm) (b : Bool) : (service_set_stale c b).1.state = c.state := by
  by_cases h : c.stale = b
  · rw [sss_of_eq c b h]
  · rw [sss_of_ne c b h, us_state, su_state]

theorem sss_syncs (c : Charm) (b : Bool) : (service_set_stale c b).1.syncs = c.syncs := by
  by_cases h : c.stale = b
  · rw [sss_of_eq c b h]
  · rw [sss_of_ne c b h, us_syncs, su_syncs]

theorem sss_required (c : Charm) (b : Bool) :
    (service_set_stale c b).1.service_required_syncs = c.service_required_syncs := by
  by_cases h : c.stale = b
  · rw [sss_of_eq c b h]
  · rw [sss_of_ne c b h, us_required, su_required]

theorem sss_handlers (c : Charm) (b : Bool) :
    (service_set_stale c b).1.service_sync_handlers = c.service_sync_handlers := by
  by_cases h : c.stale = b
  · rw [sss_of_eq c b h]
  · rw [sss_of_ne c b h, us_handlers, su_handlers]

theorem sss_hooks (c : Charm) (b : Bool) : (service_set_stale c b).1.hooks = c.hooks := by
  by_cases h : c.stale = b
  · rw [sss_of_eq c b h]
  · rw [sss_of_ne c b h, us_hooks, su_hooks]

theorem sss_trace (c : Charm) (b : Bool) :
    (service_set_stale c b).1.trace = c.trace
      ∨ (service_set_stale c b).1.trace
          = c.trace ++ [Ev.setUpdated "stale", Ev.updateStatus] := by
  by_cases h : c.stale = b
  · left
    rw [sss_of_eq c b h]
  · right
    rw [sss_of_ne c b h, us_trace _ (su_isSome _ _ _), su_trace]
    simp

theorem sss_updated (c : Charm) (b : Bool) :
    (service_set_stale c b).1.updated = c.updated
      ∨ (service_set_stale c b).1.updated.isSome := by
  by_cases h : c.stale = b
  · left
    rw [sss_of_eq c b h]
  · right
    rw [sss_of_ne c b h, us_updated]
    exact su_isSome _ _ _

/-- The refusal branch of service_sync (service.py 625-629). -/
theorem sync_refuse (c : Charm) (h : c.state ∉ PRESTARTED_STATES) :
    service_sync c false =
      service_update_status
        (service_set_updated (service_set_stale c true).1 "sync" none) := by
  unfold service_sync
  rw [if_pos ⟨(by simpa [service_get_state] using h), rfl⟩]
  rw [pseq_false _ (sss_snd _ _)]
  rw [pseq_false _ rfl]

/-- The run branch of service_sync with a non-raising sync hook
(service.py 630-641). -/
theorem sync_run_ok (c : Charm) (force : Bool)
    (h : ¬(c.state ∉ PRESTARTED_STATES ∧ force = false)) (hok : c.hooks.sync = false) :
    service_sync c force =
      service_update_status
        (service_set_updated
          (service_set_stale { c with trace := c.trace ++ [Ev.hookSync] } false).1
          "sync" none) := by
  unfold service_sync
  rw [if_neg (by simpa [service_get_state] using h)]
  rw [pseq_false _ rfl]
  unfold runHook
  rw [pseq_false _ hok]
  rw [pseq_false _ (sss_snd _ _)]

/-- The run branch of service_sync with a raising sync hook: the exception
is caught, nothing is stamped, only the final update_status runs. -/
theorem sync_run_fail (c : Charm) (force : Bool)
    (h : ¬(c.state ∉ PRESTARTED_STATES ∧ force = false)) (hfail : c.hooks.sync = true) :
    service_sync c force =
      service_update_status { c with trace := c.trace ++ [Ev.hookSync] } := by
  unfold service_sync
  rw [if_neg (by simpa [service_get_state] using h)]
  rw [pseq_false _ rfl]
  unfold runHook
  rw [pseq_true _ hfail]

theorem sync_ok_facts (c : Charm) (h : c.state ∈ PRESTARTED_STATES)
    (hok : c.hooks.sync = false) :
    (service_sync c false).2 = false
    ∧ (service_sync c false).1.state = c.state
    ∧ (service_sync c false).1.hooks = c.hooks
    ∧ (service_sync c false).1.service_required_syncs = c.service_required_syncs
    ∧ (service_sync c false).1.updated.isSome
    ∧ ∃ t, (service_sync c false).1.trace = c.trace ++ (Ev.hookSync :: t) := by
  have hcond : ¬(c.state ∉ PRESTARTED_STATES ∧ (false : Bool) = false) := by
    intro hc
    exact hc.1 h
  rw [sync_run_ok c false hcond hok]
  refine ⟨us_snd _ (su_isSome _ _ _), ?_, ?_, ?_, ?_, ?_⟩
  · rw [us_state, su_state, sss_state]
  · rw [us_hooks, su_hooks, sss_hooks]
  · rw [us_required, su_required, sss_required]
  · rw [us_updated]
    exact su_isSome _ _ _
  · rcases sss_trace { c with trace := c.trace ++ [Ev.hookSync] } false with htr | htr
    · refine ⟨[Ev.setUpdated "sync", Ev.updateStatus], ?_⟩
      rw [us_trace _ (su_isSome _ _ _), su_trace, htr]
      simp
    · refine ⟨[Ev.setUpdated "stale", Ev.updateStatus, Ev.setUpdated "sync", Ev.updateStatus], ?_⟩
      rw [us_trace _ (su_isSome _ _ _), su_trace, htr]
      simp

theorem start_ok_eq (c : Charm) (h : c.state ∈ PRESTARTED_STATES)
    (hsync2 : (service_sync c false).2 = false)
    (hstart_ok : (service_sync c false).1.hooks.start = false) :
    service_start c =
      service_update_status
        (service_set_updated
          (service_set_state
            { (service_sync c false).1 with
                trace := (service_sync c false).1.trace ++ [Ev.hookStart] }
            "started").1
          "start" none) := by
  unfold service_start
  rw [if_pos (by simpa [service_get_state] using h)]
  simp only [pseq_false _ hsync2]
  simp only [@pseq_false (runHook (service_sync c false).1 Ev.hookStart
      (service_sync c false).1.hooks.start) _ hstart_ok]
  simp only [pseq_false _ (ssst_snd _ _)]
  rfl

/-- C1 (amended): service_start fires exactly from the code's
PRESTARTED_STATES {enabled, waiting, broken}; from any other state
(including idle) it is a no-op; from enabled with an empty required_syncs
list it runs the sync step and the start hook and transitions to started. -/
theorem C1_start_gating (c : Charm) :
    (c.state ∉ PRESTARTED_STATES → service_start c = (c, false))
    ∧ (c.state = "enabled" → c.service_required_syncs = [] →
        c.hooks.sync = false → c.hooks.start = false →
        ((service_start c).1.state = "started"
          ∧ ∃ t, (service_start c).1.trace = c.trace ++ t
              ∧ Ev.hookSync ∈ t ∧ Ev.hookStart ∈ t ∧ Ev.setUpdated "start" ∈ t)) := by
  constructor
  · intro h
    unfold service_start
    rw [if_neg (by simpa [service_get_state] using h)]
  · intro h1 h2 h3 h4
    have hmem : c.state ∈ PRESTARTED_STATES := by
      rw [h1]
      decide
    obtain ⟨hs2, hsstate, hshooks, hsreq, hsupd, t0, hstrace⟩ := sync_ok_facts c hmem h3
    have hstart_ok : (service_sync c false).1.hooks.start = false := by rw [hshooks, h4]
    rw [start_ok_eq c hmem hs2 hstart_ok]
    have hreq2 : ({ (service_sync c false).1 with
        trace := (service_sync c false).1.trace ++ [Ev.hookStart] } : Charm).service_required_syncs
        = [] := by
      show (service_sync c false).1.service_required_syncs = []
      rw [hsreq, h2]
    have hsynced : service_is_synced { (service_sync c false).1 with
        trace := (service_sync c false).1.trace ++ [Ev.hookStart] } = true := by
      unfold service_is_synced
      rw [hreq2]
      rfl
    constructor
    · rw [us_state, su_state, ssst_state]
      simp [resolveState, hsynced]
    · obtain ⟨t1, ht1⟩ := ssst_trace { (service_sync c false).1 with
        trace := (service_sync c false).1.trace ++ [Ev.hookStart] } "started"
      refine ⟨(Ev.hookSync :: t0) ++ ([Ev.hookStart] ++ (Ev.setStateCall :: t1)
          ++ [Ev.setUpdated "start", Ev.updateStatus]), ?_, by simp, by simp, by simp⟩
      rw [us_trace _ (su_isSome _ _ _), su_trace, ht1]
      show ((service_sync c false).1.trace ++ [Ev.hookStart]) ++ (Ev.setStateCall :: t1)
          ++ [Ev.setUpdated "start"] ++ [Ev.updateStatus] = _
      rw [hstrace]
      simp

/-- C4 (amended): for every state outside the code's PRESTARTED_STATES
{enabled, waiting, broken} - in particular idle and started -
service_sync(force=false) does not invoke the sync hook, leaves stale true
(setting it when needed) and stamps updated="sync". -/
theorem C4_sync_refusal (c : Charm) (h : c.state ∉ PRESTARTED_STATES) :
    (service_sync c false).1.stale = true
    ∧ (∃ n, (service_sync c false).1.updated = some (n, "sync"))
    ∧ ∃ t, (service_sync c false).1.trace = c.trace ++ t ∧ Ev.hookSync ∉ t := by
  rw [sync_refuse c h]
  refine ⟨?_, ?_, ?_⟩
  · rw [us_stale, su_stale, sss_stale]
  · rw [us_updated]
    exact su_updated _ _ _
  · rcases sss_trace c true with htr | htr
    · refine ⟨[Ev.setUpdated "sync", Ev.updateStatus], ?_, by decide⟩
      rw [us_trace _ (su_isSome _ _ _), su_trace, htr]
      simp
    · refine ⟨[Ev.setUpdated "stale", Ev.updateStatus, Ev.setUpdated "sync", Ev.updateStatus],
        ?_, by decide⟩
      rw [us_trace _ (su_isSome _ _ _), su_trace, htr]
      simp

/-- C1 counterexample: on a freshly constructed charm (state idle, no
required syncs) service_start is a no-op and the state does not become
started, contradicting the claim that start fires from idle. -/
theorem C1_counterexample :
    sampleIdle.state = "idle"
    ∧ sampleIdle.service_required_syncs = []
    ∧ service_start sampleIdle = (sampleIdle, false)
    ∧ (service_start sampleIdle).1.state ≠ "started" :=
  ⟨rfl, rfl, rfl, by decide⟩

/-- C1 witness: concrete instances of both parts of the amended claim. -/
theorem C1_witness :
    (service_start sampleIdle = (sampleIdle, false))
    ∧ (service_start sampleEnabled).1.state = "started"
    ∧ ∃ t, (service_start sampleEnabled).1.trace = sampleEnabled.trace ++ t
        ∧ Ev.hookSync ∈ t ∧ Ev.hookStart ∈ t ∧ Ev.setUpdated "start" ∈ t :=
  ⟨(C1_start_gating sampleIdle).1 (by decide),
   ((C1_start_gating sampleEnabled).2 rfl rfl rfl rfl).1,
   ((C1_start_gating sampleEnabled).2 rfl rfl rfl rfl).2⟩

/-- C4 counterexample: waiting is a state other than idle and enabled, yet
service_sync(force=false) from waiting invokes the sync hook and clears
stale, contradicting the claim as stated. -/
theorem C4_counterexample :
    sampleWaiting.state ≠ "idle" ∧ sampleWaiting.state ≠ "enabled"
    ∧ (service_sync sampleWaiting false).1.stale = false
    ∧ Ev.hookSync ∈ (service_sync sampleWaiting false).1.trace :=
  ⟨by decide, by decide, by decide, by decide⟩

/-- C4 witness: the refusal branch on a fresh idle charm. -/
theorem C4_witness :
    (service_sync sampleIdle false).1.stale = true
    ∧ (∃ n, (service_sync sampleIdle false).1.updated = some (n, "sync"))
    ∧ ∃ t, (service_sync sampleIdle false).1.trace = sampleIdle.trace ++ t
        ∧ Ev.hookSync ∉ t :=
  C4_sync_refusal sampleIdle (by decide)

theorem ssst_updSome (c : Charm) (s : String) (h : c.updated.isSome) :
    (service_set_state c s).1.updated.isSome := by
  rcases ssst_updated c s with he | ⟨n, hn⟩
  · rw [he]
    exact h
  · rw [hn]
    rfl

theorem sync_updSome (c : Charm) (force : Bool) (h : c.updated.isSome) :
    (service_sync c force).1.updated.isSome := by
  by_cases hc : c.state ∉ PRESTARTED_STATES ∧ force = false
  · obtain ⟨hc1, hc2⟩ := hc
    subst hc2
    rw [sync_refuse c hc1, us_updated]
    exact su_isSome _ _ _
  · by_cases hok : c.hooks.sync = true
    · rw [sync_run_fail c force hc hok, us_updated]
      exact h
    · rw [sync_run_ok c force hc ((Bool.not_eq_true _).mp hok), us_updated]
      exact su_isSome _ _ _

theorem sync_nr (c : Charm) (force : Bool) (h : c.updated.isSome) :
    (service_sync c force).2 = false := by
  by_cases hc : c.state ∉ PRESTARTED_STATES ∧ force = false
  · obtain ⟨hc1, hc2⟩ := hc
    subst hc2
    rw [sync_refuse c hc1]
    exact us_snd _ (su_isSome _ _ _)
  · by_cases hok : c.hooks.sync = true
    · rw [sync_run_fail c force hc hok]
      exact us_snd _ h
    · rw [sync_run_ok c force hc ((Bool.not_eq_true _).mp hok)]
      exact us_snd _ (su_isSome _ _ _)

theorem start_nr (c : Charm) (h : c.updated.isSome) : (service_start c).2 = false := by
  unfold service_start
  by_cases hmem : service_get_state c ∈ PRESTARTED_STATES
  · rw [if_pos hmem]
    apply us_snd
    simp only [pseq_false _ (sync_nr c false h)]
    by_cases hr : (service_sync c false).1.hooks.start = true
    · rw [@pseq_true (runHook (service_sync c false).1 Ev.hookStart
        (service_sync c false).1.hooks.start) _ hr]
      exact sync_updSome c false h
    · simp only [@pseq_false (runHook (service_sync c false).1 Ev.hookStart
        (service_sync c false).1.hooks.start) _ ((Bool.not_eq_true _).mp hr)]
      simp only [pseq_false _ (ssst_snd _ _)]
      exact su_isSome _ _ _
  · rw [if_neg hmem]

theorem stop_nr (c : Charm) (f : Bool) (h : c.updated.isSome) :
    (service_stop c f).2 = false := by
  unfold service_stop
  by_cases hmem : service_get_state c ∈ STARTED_STATES
  · rw [if_pos hmem]
    apply us_snd
    by_cases hr : c.hooks.stop = true
    · rw [@pseq_true (runHook c Ev.hookStop c.hooks.stop) _ hr]
      exact h
    · simp only [@pseq_false (runHook c Ev.hookStop c.hooks.stop) _ ((Bool.not_eq_true _).mp hr)]
      simp only [pseq_false _ (ssst_snd _ _)]
      exact su_isSome _ _ _
  · rw [if_neg hmem]

theorem install_snd (c : Charm) : (service_install c).2 = c.hooks.install := rfl

theorem install_updated (c : Charm) :
    (service_install c).1.updated = some (c.clock, "install") := by
  unfold service_install
  rw [us_updated, su_updated_none]
  rfl

theorem install_trace_status (c : Charm) :
    Ev.updateStatus ∈ (service_install c).1.trace := by
  unfold service_install
  rw [us_trace _ (su_isSome _ _ _), su_trace]
  simp

theorem stop_fail_eq (c : Charm) (f : Bool) (h : service_get_state c ∈ STARTED_STATES)
    (hfail : c.hooks.stop = true) :
    service_stop c f = service_update_status { c with trace := c.trace ++ [Ev.hookStop] } := by
  unfold service_stop
  rw [if_pos h]
  rw [@pseq_true (runHook c Ev.hookStop c.hooks.stop) _ hfail]
  rfl

/-- C2 (amended): exceptions from the start, stop and sync hooks never
escape their public operations; an exception from the install hook escapes
service_install, although updated and status are refreshed before it
propagates; after a failing stop or sync hook the updated marker is left
unchanged while the status is still recomputed, and a failing start hook
leaves the sync substep's updated stamp in place. -/
theorem C2_hook_failure_policy (c : Charm) (f : Bool) (hupd : c.updated.isSome) :
    (service_start c).2 = false
    ∧ (service_stop c f).2 = false
    ∧ (service_sync c f).2 = false
    ∧ (service_install c).2 = c.hooks.install
    ∧ (service_install c).1.updated = some (c.clock, "install")
    ∧ Ev.updateStatus ∈ (service_install c).1.trace
    ∧ (c.state ∈ STARTED_STATES → c.hooks.stop = true →
        (service_stop c f).1.updated = c.updated
          ∧ Ev.updateStatus ∈ (service_stop c f).1.trace)
    ∧ (c.state ∈ PRESTARTED_STATES → c.hooks.sync = true →
        (service_sync c f).1.updated = c.updated
          ∧ Ev.updateStatus ∈ (service_sync c f).1.trace)
    ∧ (c.state ∈ PRESTARTED_STATES → c.hooks.sync = false → c.hooks.start = true →
        ∃ n, (service_start c).1.updated = some (n, "sync")) := by
  refine ⟨start_nr c hupd, stop_nr c f hupd, sync_nr c f hupd, install_snd c,
    install_updated c, install_trace_status c, ?_, ?_, ?_⟩
  · intro hmem hsf
    rw [stop_fail_eq c f (by simpa [service_get_state] using hmem) hsf]
    constructor
    · rw [us_updated]
    · rw [us_trace { c with trace := c.trace ++ [Ev.hookStop] } hupd]
      simp
  · intro hmem hsf
    have hcond : ¬(c.state ∉ PRESTARTED_STATES ∧ f = false) := fun hc => hc.1 hmem
    rw [sync_run_fail c f hcond hsf]
    constructor
    · rw [us_updated]
    · rw [us_trace { c with trace := c.trace ++ [Ev.hookSync] } hupd]
      simp
  · intro hmem hsok hstfail
    obtain ⟨hs2, hsstate, hshooks, hsreq, hsupd, t0, hstrace⟩ := sync_ok_facts c hmem hsok
    unfold service_start
    rw [if_pos (by simpa [service_get_state] using hmem)]
    rw [us_updated]
    simp only [pseq_false _ hs2]
    have hr : (service_sync c false).1.hooks.start = true := by rw [hshooks, hstfail]
    rw [@pseq_true (runHook (service_sync c false).1 Ev.hookStart
      (service_sync c false).1.hooks.start) _ hr]
    show ∃ n, (service_sync c false).1.updated = some (n, "sync")
    have hcond : ¬(c.state ∉ PRESTARTED_STATES ∧ (false : Bool) = false) := fun hc => hc.1 hmem
    rw [sync_run_ok c false hcond hsok, us_updated]
    exact su_updated _ _ _

/-- C2 counterexample: a failing install hook escapes service_install,
contradicting the claim that no hook exception escapes. -/
theorem C2_counterexample :
    sampleInstallRaise.hooks.install = true
    ∧ (service_install sampleInstallRaise).2 = true := ⟨rfl, rfl⟩

/-- C2 witness: concrete instances with each hook raising. -/
theorem C2_witness :
    (service_start sampleEnabledStartRaise).2 = false
    ∧ (service_stop sampleStartedStopRaise false).2 = false
    ∧ (service_sync sampleEnabledSyncRaise false).2 = false
    ∧ ((service_stop sampleStartedStopRaise false).1.updated
          = sampleStartedStopRaise.updated
        ∧ Ev.updateStatus ∈ (service_stop sampleStartedStopRaise false).1.trace)
    ∧ ((service_sync sampleEnabledSyncRaise false).1.updated
          = sampleEnabledSyncRaise.updated
        ∧ Ev.updateStatus ∈ (service_sync sampleEnabledSyncRaise false).1.trace)
    ∧ (∃ n, (service_start sampleEnabledStartRaise).1.updated = some (n, "sync"))
    ∧ (service_install sampleInstallRaise).1.updated
        = some (sampleInstallRaise.clock, "install")
    ∧ Ev.updateStatus ∈ (service_install sampleInstallRaise).1.trace :=
  ⟨(C2_hook_failure_policy sampleEnabledStartRaise false rfl).1,
   (C2_hook_failure_policy sampleStartedStopRaise false rfl).2.1,
   (C2_hook_failure_policy sampleEnabledSyncRaise false rfl).2.2.1,
   (C2_hook_failure_policy sampleStartedStopRaise false rfl).2.2.2.2.2.2.1 (by decide) rfl,
   (C2_hook_failure_policy sampleEnabledSyncRaise false rfl).2.2.2.2.2.2.2.1 (by decide) rfl,
   (C2_hook_failure_policy sampleEnabledStartRaise false rfl).2.2.2.2.2.2.2.2 (by decide) rfl rfl,
   (C2_hook_failure_policy sampleInstallRaise false rfl).2.2.2.2.1,
   (C2_hook_failure_policy sampleInstallRaise false rfl).2.2.2.2.2.1⟩

theorem good_refl (c : Charm) : Good c c :=
  Or.inl ⟨rfl, [], by simp⟩

theorem good_of_keep {c c' : Charm} (hm : mutFields c' = mutFields c)
    (h : ∃ t, c'.trace = c.trace ++ t) : Good c c' :=
  Or.inl ⟨hm, h⟩

theorem good_trans {c1 c2 c3 : Charm} (h12 : Good c1 c2) (h23 : Good c2 c3) :
    Good c1 c3 := by
  rcases h12 with ⟨hm12, t1, ht1⟩ | ⟨t1, ht1, hw1, hu1⟩
  · rcases h23 with ⟨hm23, t2, ht2⟩ | ⟨t2, ht2, hw2, hu2⟩
    · exact Or.inl ⟨hm23.trans hm12, t1 ++ t2, by rw [ht2, ht1, List.append_assoc]⟩
    · refine Or.inr ⟨t1 ++ t2, by rw [ht2, ht1, List.append_assoc], ?_, ?_⟩
      · obtain ⟨w, hw⟩ := hw2
        exact ⟨w, by simp [hw]⟩
      · simp [hu2]
  · rcases h23 with ⟨hm23, t2, ht2⟩ | ⟨t2, ht2, hw2, hu2⟩
    · refine Or.inr ⟨t1 ++ t2, by rw [ht2, ht1, List.append_assoc], ?_, ?_⟩
      · obtain ⟨w, hw⟩ := hw1
        exact ⟨w, by simp [hw]⟩
      · simp [hu1]
    · refine Or.inr ⟨t1 ++ t2, by rw [ht2, ht1, List.append_assoc], ?_, ?_⟩
      · obtain ⟨w, hw⟩ := hw1
        exact ⟨w, by simp [hw]⟩
      · simp [hu1]

theorem g_set_updated (c : Charm) (w : String) (ts : Option Nat) :
    Good c (service_set_updated c w ts) :=
  good_of_keep (by simp [mutFields, su_syncs, su_state, su_stale])
    ⟨[Ev.setUpdated w], su_trace c w ts⟩

theorem g_update_status (c : Charm) : Good c (service_update_status c).1 := by
  cases hu : c.updated with
  | none =>
    rw [us_none c hu]
    exact good_refl c
  | some u =>
    refine good_of_keep (by simp [mutFields, us_syncs, us_state, us_stale]) ?_
    exact ⟨[Ev.updateStatus], us_trace c (by rw [hu]; rfl)⟩

theorem g_append_trace (c : Charm) (t0 : List Ev) :
    Good c { c with trace := c.trace ++ t0 } :=
  good_of_keep (by simp [mutFields]) ⟨t0, rfl⟩

theorem g_set_stale (c : Charm) (b : Bool) : Good c (service_set_stale c b).1 := by
  by_cases h : c.stale = b
  · rw [sss_of_eq c b h]
    exact good_refl c
  · rw [sss_of_ne c b h]
    refine Or.inr ⟨[Ev.setUpdated "stale", Ev.updateStatus], ?_, ⟨"stale", by simp⟩, by simp⟩
    rw [us_trace _ (su_isSome _ _ _), su_trace]
    simp

theorem g_set_state (c : Charm) (s : String) : Good c (service_set_state c s).1 := by
  rw [ssst_eq_resolve]
  by_cases h : c.state = resolveState c s
  · rw [if_neg (not_not_intro h)]
    exact g_append_trace c [Ev.setStateCall]
  · rw [if_pos h]
    refine Or.inr ⟨[Ev.setStateCall, Ev.setUpdated "state", Ev.updateStatus], ?_,
      ⟨"state", by simp⟩, by simp⟩
    rw [us_trace _ (su_isSome _ _ _), su_trace]
    simp

theorem g_setSyncBody (c : Charm) (key : String) (v : Option Bool) :
    Good c (setSyncBody c key v).1 := by
  obtain ⟨t, ht, h1, h2, h3, _⟩ := ssb_trace c key v
  exact Or.inr ⟨t, ht, ⟨"sync", h2⟩, h3⟩

theorem g_set_sync (c : Charm) (key : String) (v : Option Bool) (f : Bool) :
    Good c (service_set_sync c key v f).1 := by
  cases v with
  | none =>
    rw [ssy_none]
    exact g_setSyncBody c key _
  | some b =>
    rw [ssy_some]
    by_cases hcond : (dictGet c.syncs key).join ≠ some b ∨ f = true
    · rw [if_pos hcond]
      exact g_setSyncBody c key _
    · rw [if_neg hcond]
      exact good_refl c

theorem g_sync (c : Charm) (force : Bool) : Good c (service_sync c force).1 := by
  by_cases hc : c.state ∉ PRESTARTED_STATES ∧ force = false
  · obtain ⟨hc1, hc2⟩ := hc
    subst hc2
    rw [sync_refuse c hc1]
    exact good_trans (good_trans (g_set_stale c true) (g_set_updated _ "sync" none))
      (g_update_status _)
  · by_cases hok : c.hooks.sync = true
    · rw [sync_run_fail c force hc hok]
      exact good_trans (g_append_trace c [Ev.hookSync]) (g_update_status _)
    · rw [sync_run_ok c force hc ((Bool.not_eq_true _).mp hok)]
      exact good_trans
        (good_trans (good_trans (g_append_trace c [Ev.hookSync]) (g_set_stale _ false))
          (g_set_updated _ "sync" none))
        (g_update_status _)

theorem g_start (c : Charm) : Good c (service_start c).1 := by
  unfold service_start
  by_cases hmem : service_get_state c ∈ PRESTARTED_STATES
  · rw [if_pos hmem]
    refine good_trans ?_ (g_update_status _)
    by_cases hs2 : (service_sync c false).2 = true
    · rw [pseq_true _ hs2]
      exact g_sync c false
    · simp only [pseq_false _ ((Bool.not_eq_true _).mp hs2)]
      by_cases hr : (service_sync c false).1.hooks.start = true
      · rw [@pseq_true (runHook (service_sync c false).1 Ev.hookStart
          (service_sync c false).1.hooks.start) _ hr]
        exact good_trans (g_sync c false) (g_append_trace _ [Ev.hookStart])
      · simp only [@pseq_false (runHook (service_sync c false).1 Ev.hookStart
          (service_sync c false).1.hooks.start) _ ((Bool.not_eq_true _).mp hr)]
        simp only [pseq_false _ (ssst_snd _ _)]
        exact good_trans
          (good_trans (good_trans (g_sync c false) (g_append_trace _ [Ev.hookStart]))
            (g_set_state _ "started"))
          (g_set_updated _ "start" none)
  · rw [if_neg hmem]
    exact good_refl c

theorem g_stop (c : Charm) (f : Bool) : Good c (service_stop c f).1 := by
  unfold service_stop
  by_cases hmem : service_get_state c ∈ STARTED_STATES
  · rw [if_pos hmem]
    refine good_trans ?_ (g_update_status _)
    by_cases hr : c.hooks.stop = true
    · rw [@pseq_true (runHook c Ev.hookStop c.hooks.stop) _ hr]
      exact g_append_trace c [Ev.hookStop]
    · simp only [@pseq_false (runHook c Ev.hookStop c.hooks.stop) _
        ((Bool.not_eq_true _).mp hr)]
      simp only [pseq_false _ (ssst_snd _ _)]
      exact good_trans (good_trans (g_append_trace c [Ev.hookStop])
        (g_set_state _ "enabled")) (g_set_updated _ "stop" none)
  · rw [if_neg hmem]
    exact good_refl c

theorem g_install (c : Charm) : Good c (service_install c).1 := by
  have h : (service_install c).1 =
      (service_update_status
        (service_set_updated (runHook c Ev.hookInstall c.hooks.install).1
          "install" none)).1 := rfl
  rw [h]
  exact good_trans (good_trans (g_append_trace c [Ev.hookInstall])
    (g_set_updated _ "install" none)) (g_update_status _)

theorem g_enable (c : Charm) (force : Bool) : Good c (service_enable c force).1 := by
  simp only [service_enable]
  by_cases hst : service_get_state c = "idle"
  · rw [if_pos hst]
    refine good_trans (good_trans ?_ (g_set_updated _ "enable" none)) (g_update_status _)
    by_cases hr : c.hooks.enable = true
    · rw [@pseq_true (runHook c Ev.hookEnable c.hooks.enable) _ hr]
      exact g_append_trace c [Ev.hookEnable]
    · simp only [@pseq_false (runHook c Ev.hookEnable c.hooks.enable) _
        ((Bool.not_eq_true _).mp hr)]
      simp only [pseq_false _ (ssst_snd _ _)]
      exact good_trans (good_trans (g_append_trace c [Ev.hookEnable])
        (g_set_state _ "enabled")) (g_set_updated _ "enable" none)
  · rw [if_neg hst]
    exact good_trans (g_set_updated c "enable" none) (g_update_status _)

theorem g_disable (c : Charm) (force : Bool) : Good c (service_disable c force).1 := by
  simp only [service_disable]
  by_cases hst : service_get_state c = "enabled"
  · rw [if_pos hst]
    refine good_trans (good_trans ?_ (g_set_updated _ "disable" none)) (g_update_status _)
    by_cases hr : c.hooks.disable = true
    · rw [@pseq_true (runHook c Ev.hookDisable c.hooks.disable) _ hr]
      exact g_append_trace c [Ev.hookDisable]
    · simp only [@pseq_false (runHook c Ev.hookDisable c.hooks.disable) _
        ((Bool.not_eq_true _).mp hr)]
      simp only [pseq_false _ (ssst_snd _ _)]
      exact good_trans (good_trans (g_append_trace c [Ev.hookDisable])
        (g_set_state _ "idle")) (g_set_updated _ "disable" none)
  · rw [if_neg hst]
    exact good_trans (g_set_updated c "disable" none) (g_update_status _)

theorem g_restart (c : Charm) (f s : Bool) : Good c (service_restart c f s).1 := by
  simp only [service_restart]
  by_cases h2 : (service_stop c f).2 = true
  · rw [pseq_true _ h2]
    exact g_stop c f
  · simp only [pseq_false _ ((Bool.not_eq_true _).mp h2)]
    exact good_trans (g_stop c f) (g_start _)

theorem g_init_sync (c : Charm) (key : String) (st : Bool)
    (h : Option (Option Bool → Bool)) : Good c (service_init_sync c key st h).1 := by
  unfold service_init_sync
  by_cases hd : dictGet c.syncs key = none
  · rw [if_pos hd]
    by_cases h2 : (service_set_sync c key (some st) false).2 = true
    · rw [pseq_true _ h2]
      exact g_set_sync c key (some st) false
    · simp only [pseq_false _ ((Bool.not_eq_true _).mp h2)]
      refine good_trans (g_set_sync c key (some st) false)
        (good_of_keep ?_ ⟨[], by simp⟩)
      simp [mutFields]
  · rw [if_neg hd]
    rw [pseq_pair]
    exact good_of_keep (by simp [mutFields]) ⟨[], by simp⟩

theorem g_set_required (c : Charm) (keys : List String) :
    Good c (service_set_required_syncs c keys) :=
  good_of_keep (by simp [mutFields, service_set_required_syncs])
    ⟨[], by simp [service_set_required_syncs]⟩

theorem g_set_status_message (c : Charm) (m : Option String) :
    Good c (service_set_status_message c m) :=
  good_of_keep (by simp [mutFields, service_set_status_message])
    ⟨[], by simp [service_set_status_message]⟩

theorem step_good {c c' : Charm} (h : Step c c') : Good c c' := by
  cases h with
  | install => exact g_install c
  | enable force => exact g_enable c force
  | disable force => exact g_disable c force
  | start => exact g_start c
  | stop force => exact g_stop c force
  | restart force sync => exact g_restart c force sync
  | sync force => exact g_sync c force
  | set_state s => exact g_set_state c s
  | set_stale b => exact g_set_stale c b
  | set_sync key status force => exact g_set_sync c key status force
  | init_sync key status h => exact g_init_sync c key status h
  | set_required keys => exact g_set_required c keys
  | set_status_message m => exact g_set_status_message c m
  | set_updated w ts => exact g_set_updated c w ts
  | update_status => exact g_update_status c

/-- C8: every public operation that changes syncs, state, or stale also
stamps the updated marker and recomputes the projected status within the
same operation: no silent mutation of those three fields is reachable. -/
theorem C8_no_silent_mutation (c c' : Charm) (hstep : Step c c')
    (hmut : mutFields c' ≠ mutFields c) :
    ∃ t, c'.trace = c.trace ++ t ∧ (∃ w, Ev.setUpdated w ∈ t)
      ∧ Ev.updateStatus ∈ t := by
  rcases step_good hstep with ⟨he, _⟩ | hs
  · exact absurd he hmut
  · exact hs

/-- C8 witness: clearing stale on a fresh charm stamps and recomputes. -/
theorem C8_witness :
    ∃ t, (service_set_stale sampleIdle false).1.trace = sampleIdle.trace ++ t
      ∧ (∃ w, Ev.setUpdated w ∈ t) ∧ Ev.updateStatus ∈ t :=
  C8_no_silent_mutation sampleIdle (service_set_stale sampleIdle false).1
    (Step.set_stale sampleIdle false) (by decide)

theorem sss_updSome (c : Charm) (b : Bool) (h : c.updated.isSome) :
    (service_set_stale c b).1.updated.isSome := by
  rcases sss_updated c b with he | hs
  · rw [he]
    exact h
  · exact hs

theorem ssb_updSome (c : Charm) (key : String) (v : Option Bool) :
    (setSyncBody c key v).1.updated.isSome := by
  unfold setSyncBody
  rw [pseq_false _ (ssst_snd _ _), pseq_pair, us_updated]
  exact su_isSome _ _ _

theorem ssy_updSome (c : Charm) (key : String) (v : Option Bool) (f : Bool)
    (h : c.updated.isSome) : (service_set_sync c key v f).1.updated.isSome := by
  cases v with
  | none =>
    rw [ssy_none]
    exact ssb_updSome c key _
  | some b =>
    rw [ssy_some]
    by_cases hcond : (dictGet c.syncs key).join ≠ some b ∨ f = true
    · rw [if_pos hcond]
      exact ssb_updSome c key _
    · rw [if_neg hcond]
      exact h

theorem init_updSome (c : Charm) (key : String) (st : Bool)
    (hd : Option (Option Bool → Bool)) (h : c.updated.isSome) :
    (service_init_sync c key st hd).1.updated.isSome := by
  unfold service_init_sync
  by_cases hk : dictGet c.syncs key = none
  · rw [if_pos hk]
    by_cases h2 : (service_set_sync c key (some st) false).2 = true
    · rw [pseq_true _ h2]
      exact ssy_updSome c key (some st) false h
    · simp only [pseq_false _ ((Bool.not_eq_true _).mp h2)]
      exact ssy_updSome c key (some st) false h
  · rw [if_neg hk, pseq_pair]
    exact h

theorem install_updSome (c : Charm) : (service_install c).1.updated.isSome := by
  rw [install_updated]
  rfl

theorem enable_updSome (c : Charm) (f : Bool) :
    (service_enable c f).1.updated.isSome := by
  simp only [service_enable]
  rw [us_updated]
  exact su_isSome _ _ _

theorem disable_updSome (c : Charm) (f : Bool) :
    (service_disable c f).1.updated.isSome := by
  simp only [service_disable]
  rw [us_updated]
  exact su_isSome _ _ _

theorem start_updSome (c : Charm) (h : c.updated.isSome) :
    (service_start c).1.updated.isSome := by
  unfold service_start
  by_cases hmem : service_get_state c ∈ PRESTARTED_STATES
  · rw [if_pos hmem, us_updated]
    by_cases hs2 : (service_sync c false).2 = true
    · rw [pseq_true _ hs2]
      exact sync_updSome c false h
    · simp only [pseq_false _ ((Bool.not_eq_true _).mp hs2)]
      by_cases hr : (service_sync c false).1.hooks.start = true
      · rw [@pseq_true (runHook (service_sync c false).1 Ev.hookStart
          (service_sync c false).1.hooks.start) _ hr]
        exact sync_updSome c false h
      · simp only [@pseq_false (runHook (service_sync c false).1 Ev.hookStart
          (service_sync c false).1.hooks.start) _ ((Bool.not_eq_true _).mp hr)]
        simp only [pseq_false _ (ssst_snd _ _)]
        exact su_isSome _ _ _
  · rw [if_neg hmem]
    exact h

theorem stop_updSome (c : Charm) (f : Bool) (h : c.updated.isSome) :
    (service_stop c f).1.updated.isSome := by
  unfold service_stop
  by_cases hmem : service_get_state c ∈ STARTED_STATES
  · rw [if_pos hmem, us_updated]
    by_cases hr : c.hooks.stop = true
    · rw [@pseq_true (runHook c Ev.hookStop c.hooks.stop) _ hr]
      exact h
    · simp only [@pseq_false (runHook c Ev.hookStop c.hooks.stop) _
        ((Bool.not_eq_true _).mp hr)]
      simp only [pseq_false _ (ssst_snd _ _)]
      exact su_isSome _ _ _
  · rw [if_neg hmem]
    exact h

theorem restart_updSome (c : Charm) (f s : Bool) (h : c.updated.isSome) :
    (service_restart c f s).1.updated.isSome := by
  simp only [service_restart]
  by_cases h2 : (service_stop c f).2 = true
  · rw [pseq_true _ h2]
    exact stop_updSome c f h
  · simp only [pseq_false _ ((Bool.not_eq_true _).mp h2)]
    exact start_updSome _ (stop_updSome c f h)

theorem step_updSome {c c' : Charm} (hs : Step c c') (h : c.updated.isSome) :
    c'.updated.isSome := by
  cases hs with
  | install => exact install_updSome c
  | enable force => exact enable_updSome c force
  | disable force => exact disable_updSome c force
  | start => exact start_updSome c h
  | stop force => exact stop_updSome c force h
  | restart force sync => exact restart_updSome c force sync h
  | sync force => exact sync_updSome c force h
  | set_state s => exact ssst_updSome c s h
  | set_stale b => exact sss_updSome c b h
  | set_sync key status force => exact ssy_updSome c key status force h
  | init_sync key status hd => exact init_updSome c key status hd h
  | set_required keys => exact h
  | set_status_message m => exact h
  | set_updated w ts => exact su_isSome c w ts
  | update_status =>
    rw [us_updated]
    exact h

theorem reachable_updSome (c : Charm) (h : Reachable c) : c.updated.isSome := by
  induction h with
  | init hk => rfl
  | step hr hs ih => exact step_updSome hs ih

/-- C9: on every charm state reachable after construction, the status
projection computes a (category, message) pair without raising: updated is
always a stamped pair, so service_update_status succeeds and assigns a
status. -/
theorem C9_update_status_total (c : Charm) (h : Reachable c) :
    (service_update_status c).2 = false
    ∧ ((service_update_status c).1.unit_status).isSome := by
  have hupd : c.updated.isSome := reachable_updSome c h
  exact ⟨us_snd c hupd, us_unit_isSome c hupd⟩

/-- C9 witness: the freshly constructed charm is reachable and its status
projection succeeds. -/
theorem C9_witness :
    (service_update_status sampleIdle).2 = false
    ∧ ((service_update_status sampleIdle).1.unit_status).isSome :=
  C9_update_status_total sampleIdle (Reachable.init hooksOk)
